import Mathlib

/-!
# Financial projection engine: shallow embedding and verification

This file embeds the pure calculation functions of the financial-advisory
front end (`FinancialPlanning.tsx` and `PortfolioAnalyzer.tsx`) in Lean and
proves or refutes the specified properties.

Modelling conventions:
* JavaScript numbers are modelled as exact rationals (`ℚ`); the properties
  under study are algebraic identities stated in exact arithmetic.
* A JavaScript division whose divisor is `0` produces a non-finite value
  (`NaN` or `±Infinity`); we model a possibly-non-finite result as
  `Option ℚ`, with `none` standing for any non-finite value, via the
  checked division `qdiv`.  Non-finiteness propagates through subsequent
  arithmetic exactly as `NaN`/`Infinity` contaminates JS expressions, which
  `Option.map` / `Option.bind` capture.
* Ages, time horizons and year counts are natural numbers (the components
  use integer defaults and the specification types them as integers);
  exponents of `Math.pow` in the embedded fragment are therefore `ℕ`.
-/

/-- Checked division on `ℚ`, modelling JS `/`: a zero divisor yields a
non-finite value (`NaN` when the dividend is also zero, `±Infinity`
otherwise), collapsed to `none`. -/
def qdiv (a b : ℚ) : Option ℚ := if b = 0 then none else some (a / b)

/-! ## Retirement projector (`calculateRetirement`) -/

/-- Input record of the retirement calculator (`retirementData` state). -/
structure RetirementInput where
  currentAge : ℕ
  retirementAge : ℕ
  currentSavings : ℚ
  monthlyContribution : ℚ
  expectedReturn : ℚ
  currentIncome : ℚ
  replaceIncome : ℚ
deriving DecidableEq

/-- Result record of `calculateRetirement`.  Every field derived from the
annuity division is possibly non-finite. -/
structure RetirementResult where
  totalAtRetirement : Option ℚ
  neededCapital : ℚ
  surplus : Option ℚ
  monthlyIncomeAtRetirement : Option ℚ
deriving DecidableEq

/-- `yearsToRetirement = retirementAge - currentAge`.  Natural subtraction;
it agrees with JS subtraction on every input with
`retirementAge > currentAge`, the validity precondition of the record. -/
def yearsToRetirement (d : RetirementInput) : ℕ :=
  d.retirementAge - d.currentAge

/-- `monthsToRetirement = yearsToRetirement * 12`. -/
def monthsToRetirement (d : RetirementInput) : ℕ :=
  yearsToRetirement d * 12

/-- `monthlyReturn = expectedReturn / 100 / 12`. -/
def retMonthlyReturn (d : RetirementInput) : ℚ :=
  d.expectedReturn / 100 / 12

/-- `futureCurrentSavings = currentSavings * (1 + expectedReturn/100) ^ yearsToRetirement`. -/
def futureCurrentSavings (d : RetirementInput) : ℚ :=
  d.currentSavings * (1 + d.expectedReturn / 100) ^ yearsToRetirement d

/-- `futureContributions = monthlyContribution * ((1+monthlyReturn)^monthsToRetirement - 1) / monthlyReturn`.
The division is the code's literal expression: no special case for a zero
monthly return, so `expectedReturn = 0` makes it `0/0`, i.e. `NaN`. -/
def futureContributions (d : RetirementInput) : Option ℚ :=
  (qdiv ((1 + retMonthlyReturn d) ^ monthsToRetirement d - 1) (retMonthlyReturn d)).map
    (fun q => d.monthlyContribution * q)

/-- The body of `calculateRetirement` (FinancialPlanning.tsx, lines 82-105). -/
def calculateRetirement (d : RetirementInput) : RetirementResult :=
  let total := (futureContributions d).map (fun fc => futureCurrentSavings d + fc)
  let neededIncome := d.currentIncome * d.replaceIncome / 100
  let neededCapital := neededIncome * 25
  { totalAtRetirement := total
    neededCapital := neededCapital
    surplus := total.map (fun t => t - neededCapital)
    monthlyIncomeAtRetirement := total.map (fun t => t * (4 / 100) / 12) }

/-! ## Goal projector (`calculateGoal`) -/

/-- The three risk tiers. -/
inductive RiskTolerance where
  | conservative
  | moderate
  | aggressive
deriving DecidableEq

/-- Input record of the goal calculator (`goalData` state). -/
structure GoalInput where
  goalName : String
  targetAmount : ℚ
  currentAmount : ℚ
  monthlyContribution : ℚ
  timeHorizon : ℕ
  riskTolerance : RiskTolerance
deriving DecidableEq

/-- A stocks/bonds/cash percentage split. -/
structure Allocation where
  stocks : ℚ
  bonds : ℚ
  cash : ℚ
deriving DecidableEq

/-- The `returnRates` table of `calculateGoal`. -/
def returnRates : RiskTolerance → ℚ
  | .conservative => 4
  | .moderate => 7
  | .aggressive => 10

/-- The `allocations` table of `calculateGoal`. -/
def allocations : RiskTolerance → Allocation
  | .conservative => ⟨30, 60, 10⟩
  | .moderate => ⟨60, 30, 10⟩
  | .aggressive => ⟨80, 15, 5⟩

/-- `monthlyReturn` inside `calculateGoal`: the tier's fixed annual return
over 100 over 12. -/
def goalMonthlyReturn (g : GoalInput) : ℚ :=
  returnRates g.riskTolerance / 100 / 12

/-- The annuity factor `((1+monthlyReturn)^timeHorizon - 1) / monthlyReturn`
appearing in `calculateGoal`'s `futureValue` (line 122): the only division
by a rate in the goal projector. -/
def goalAnnuityFactor (g : GoalInput) : Option ℚ :=
  qdiv ((1 + goalMonthlyReturn g) ^ g.timeHorizon - 1) (goalMonthlyReturn g)

/-- Result record of `calculateGoal` (the `PlanningResult` interface),
restricted to the rational fragment.  `monthsToGoal`, an integer after
`Math.ceil`, is `none` when the division produced a non-finite value.
The `expectedReturns` field of the source computes
`currentAmount * (1+r)^(timeHorizon/12)` with a non-integer real exponent
and lies outside the exact rational fragment; no claim mentions it, and its
only division by a rate is `goalAnnuityFactor` above. -/
structure PlanningResult where
  monthsToGoal : Option ℤ
  totalContributions : ℚ
  recommendedAllocation : Allocation
deriving DecidableEq

/-- The body of `calculateGoal` (FinancialPlanning.tsx, lines 107-136):
`remaining = targetAmount - currentAmount` (no clamping at zero) and
`monthsToGoal = Math.ceil(remaining / monthlyContribution)` (no guard on
the divisor). -/
def calculateGoal (g : GoalInput) : PlanningResult :=
  let remaining := g.targetAmount - g.currentAmount
  { monthsToGoal := (qdiv remaining g.monthlyContribution).map Int.ceil
    totalContributions := g.monthlyContribution * g.timeHorizon
    recommendedAllocation := allocations g.riskTolerance }

/-! ## Compound-interest projector (`calculateCompound`) -/

/-- Input record of the compound calculator (`compoundData` state). -/
structure CompoundInput where
  principal : ℚ
  monthlyContribution : ℚ
  annualReturn : ℚ
  years : ℕ
deriving DecidableEq

/-- Result record of `calculateCompound`. -/
structure CompoundResult where
  totalValue : Option ℚ
  totalContributions : ℚ
  totalEarnings : Option ℚ
  returnMultiple : Option ℚ
deriving DecidableEq

/-- The body of `calculateCompound` (FinancialPlanning.tsx, lines 138-159). -/
def calculateCompound (c : CompoundInput) : CompoundResult :=
  let monthlyReturn := c.annualReturn / 100 / 12
  let months := c.years * 12
  let futurePrincipal := c.principal * (1 + c.annualReturn / 100) ^ c.years
  let futureConts :=
    (qdiv ((1 + monthlyReturn) ^ months - 1) monthlyReturn).map
      (fun q => c.monthlyContribution * q)
  let totalValue := futureConts.map (fun fc => futurePrincipal + fc)
  let totalContributions := c.principal + c.monthlyContribution * (months : ℚ)
  { totalValue := totalValue
    totalContributions := totalContributions
    totalEarnings := totalValue.map (fun tv => tv - totalContributions)
    returnMultiple := totalValue.bind (fun tv => qdiv tv totalContributions) }

/-! ## Portfolio metrics summarizer (`calculateMetrics`) -/

/-- A portfolio holding. -/
structure Holding where
  symbol : String
  shares : ℚ
  avgPrice : ℚ
  currentPrice : ℚ
deriving DecidableEq

/-- Result record of `calculateMetrics`. -/
structure PortfolioMetrics where
  totalValue : ℚ
  totalGainLoss : ℚ
  totalGainLossPercent : ℚ
  riskScore : ℚ
  diversificationScore : ℚ
deriving DecidableEq

/-- The `forEach` accumulation of `totalValue`: a left fold of
`+= shares * currentPrice` starting from `0`. -/
def portfolioTotalValue (hs : List Holding) : ℚ :=
  hs.foldl (fun acc h => acc + h.shares * h.currentPrice) 0

/-- The `forEach` accumulation of `totalCost`: a left fold of
`+= shares * avgPrice` starting from `0`. -/
def portfolioTotalCost (hs : List Holding) : ℚ :=
  hs.foldl (fun acc h => acc + h.shares * h.avgPrice) 0

/-- The body of `calculateMetrics` (PortfolioAnalyzer.tsx, lines 37-60).
The `totalCost = 0` division is guarded (`totalCost > 0 ? … : 0`), so all
fields are finite rationals. -/
def calculateMetrics (hs : List Holding) : PortfolioMetrics :=
  let totalValue := portfolioTotalValue hs
  let totalCost := portfolioTotalCost hs
  let totalGainLoss := totalValue - totalCost
  let totalGainLossPercent := if 0 < totalCost then totalGainLoss / totalCost * 100 else 0
  { totalValue := totalValue
    totalGainLoss := totalGainLoss
    totalGainLossPercent := totalGainLossPercent
    riskScore := min 100 (max 0 (50 + totalGainLossPercent * 2))
    diversificationScore := min 100 ((hs.length : ℚ) * 20) }

/-- The component's default holdings list. -/
def sampleHoldings : List Holding :=
  [⟨"AAPL", 50, 150, 192.53⟩, ⟨"MSFT", 25, 300, 418.24⟩, ⟨"GOOGL", 15, 100, 138.21⟩]

/-! ## Basic sanity lemmas shared by several claims -/

/-- Unfolding of `qdiv` with a nonzero divisor. -/
theorem qdiv_of_ne (a b : ℚ) (hb : b ≠ 0) : qdiv a b = some (a / b) := by
  simp [qdiv, hb]

/-- A left fold of `+ f x` over a list is the sum of the mapped list. -/
theorem foldl_add_eq_sum (f : Holding → ℚ) (hs : List Holding) (a : ℚ) :
    hs.foldl (fun acc h => acc + f h) a = a + (hs.map f).sum := by
  induction hs generalizing a with
  | nil => simp
  | cons h t ih => simp [List.foldl_cons, ih, add_assoc]

/-! ## Claim inputs -/

/-- The component's default retirement input with the expected return set
to zero: the zero-rate edge case. -/
def zeroRateInput : RetirementInput := ⟨30, 65, 50000, 1000, 0, 75000, 80⟩

/-- A goal input whose current amount exceeds its target. -/
def overfundedGoal : GoalInput := ⟨"House Down Payment", 100, 5000, 2000, 36, .moderate⟩

/-- The component's default goal input with the monthly contribution set
to zero. -/
def zeroContributionGoal : GoalInput := ⟨"House Down Payment", 100000, 20000, 0, 36, .moderate⟩

/-- The component's default compound-interest input. -/
def compoundDefault : CompoundInput := ⟨10000, 500, 8, 20⟩

/-- A retirement input with a large negative expected return
(`monthlyReturn = -3`) and an even number of months. -/
def negativeRateInput : RetirementInput := ⟨30, 32, 0, 1000, -3600, 0, 0⟩

/-- Five one-share holdings. -/
def fiveHoldings : List Holding :=
  [⟨"A", 1, 1, 1⟩, ⟨"B", 1, 1, 1⟩, ⟨"C", 1, 1, 1⟩, ⟨"D", 1, 1, 1⟩, ⟨"E", 1, 1, 1⟩]

/-! ## C1: zero-rate retirement input -/

/-- C1: the claim says `calculateRetirement` special-cases
`expectedReturn = 0` and returns
`currentSavings + monthlyContribution * monthsToRetirement`.  It does not:
on the zero-rate input (retirementAge 65 > currentAge 30) the annuity
expression is `0/0`, a non-finite value (`NaN`), so `totalAtRetirement` is
non-finite instead of the claimed finite value `470000`. -/
theorem retirement_zeroRate_not_specialCased :
    zeroRateInput.expectedReturn = 0 ∧
    zeroRateInput.currentAge < zeroRateInput.retirementAge ∧
    (calculateRetirement zeroRateInput).totalAtRetirement = none ∧
    zeroRateInput.currentSavings
        + zeroRateInput.monthlyContribution * (monthsToRetirement zeroRateInput : ℚ)
      = 470000 := by
  refine ⟨rfl, by norm_num [zeroRateInput], ?_, ?_⟩
  · norm_num [calculateRetirement, futureContributions, qdiv, retMonthlyReturn, zeroRateInput]
  · norm_num [zeroRateInput, monthsToRetirement, yearsToRetirement]

/-! ## C2: months-to-goal formula -/

/-- C2 counterexample: with `targetAmount = 100`, `currentAmount = 5000`,
`monthlyContribution = 2000 > 0` the code returns
`monthsToGoal = ceil(-4900/2000) = -2`, a negative number, while the claim
demands `ceil(max(targetAmount - currentAmount, 0)/monthlyContribution) = 0`
and `monthsToGoal ≥ 0`. -/
theorem goal_months_negative_cex :
    0 < overfundedGoal.monthlyContribution ∧
    (calculateGoal overfundedGoal).monthsToGoal = some (-2) ∧
    Int.ceil (max (overfundedGoal.targetAmount - overfundedGoal.currentAmount) 0
        / overfundedGoal.monthlyContribution) = 0 ∧
    ¬ ((0 : ℤ) ≤ -2) := by
  refine ⟨by norm_num [overfundedGoal], ?_, ?_, by norm_num⟩
  · norm_num [calculateGoal, qdiv, overfundedGoal]
    norm_num [Int.ceil_eq_iff]
  · norm_num [overfundedGoal]

/-- C2 amended: for `monthlyContribution > 0`, `monthsToGoal` is
`ceil((targetAmount - currentAmount)/monthlyContribution)` with no clamping
of the remaining amount at zero, so it may be negative when
`currentAmount > targetAmount`; the ceiling property
`monthsToGoal * monthlyContribution ≥ targetAmount - currentAmount` holds,
and when `currentAmount ≤ targetAmount` the code agrees with the claimed
`ceil(max(remaining, 0)/monthlyContribution)` and is nonnegative. -/
theorem calculateGoal_months_spec (g : GoalInput) (h : 0 < g.monthlyContribution) :
    (calculateGoal g).monthsToGoal
        = some (Int.ceil ((g.targetAmount - g.currentAmount) / g.monthlyContribution)) ∧
    g.targetAmount - g.currentAmount
        ≤ (Int.ceil ((g.targetAmount - g.currentAmount) / g.monthlyContribution) : ℚ)
            * g.monthlyContribution ∧
    (g.currentAmount ≤ g.targetAmount →
      0 ≤ Int.ceil ((g.targetAmount - g.currentAmount) / g.monthlyContribution) ∧
      (calculateGoal g).monthsToGoal
          = some (Int.ceil (max (g.targetAmount - g.currentAmount) 0
              / g.monthlyContribution))) := by
  have hne : g.monthlyContribution ≠ 0 := ne_of_gt h
  have hmain : (calculateGoal g).monthsToGoal
      = some (Int.ceil ((g.targetAmount - g.currentAmount) / g.monthlyContribution)) := by
    simp [calculateGoal, qdiv, hne]
  refine ⟨hmain, ?_, fun hle => ⟨?_, ?_⟩⟩
  · exact (div_le_iff₀ h).mp (Int.le_ceil _)
  · exact Int.ceil_nonneg (div_nonneg (sub_nonneg.mpr hle) h.le)
  · rw [hmain, max_eq_left (sub_nonneg.mpr hle)]

/-- C2 witness: the amended statement applied to the component's default
goal input (`target 100000`, `current 20000`, `contribution 2000`). -/
theorem calculateGoal_months_spec_witness :
    (0 : ℚ) < 2000 ∧
    (calculateGoal ⟨"House Down Payment", 100000, 20000, 2000, 36, .moderate⟩).monthsToGoal
      = some 40 := by
  have h := (calculateGoal_months_spec
    ⟨"House Down Payment", 100000, 20000, 2000, 36, .moderate⟩ (by norm_num)).1
  refine ⟨by norm_num, ?_⟩
  rw [h]
  norm_num

/-! ## C3: non-positive contribution in the goal projector -/

/-- C3: the claim says `calculateGoal` fails fast on
`monthlyContribution ≤ 0`.  It does not: on the default goal input with the
contribution set to `0` the code silently returns a result whose
`monthsToGoal` is `ceil(80000/0) = Infinity`, a non-finite value, with no
error signalled anywhere. -/
theorem goal_zeroContribution_silent :
    zeroContributionGoal.monthlyContribution ≤ 0 ∧
    (calculateGoal zeroContributionGoal).monthsToGoal = none := by
  refine ⟨by norm_num [zeroContributionGoal], ?_⟩
  norm_num [calculateGoal, qdiv, zeroContributionGoal]

/-! ## C4: compound-interest identities -/

/-- C4: for every compound input with a positive horizon,
`totalContributions = principal + monthlyContribution * years * 12`,
`totalEarnings = totalValue - totalContributions` and
`returnMultiple = totalValue / totalContributions` (checked division, as in
the code); on the component's default input (10000, 500, 8% for 20 years)
the contributions are exactly 130000 and the total value is a finite
rational strictly greater than 130000. -/
theorem calculateCompound_spec :
    (∀ c : CompoundInput, 0 < c.years →
      (calculateCompound c).totalContributions
          = c.principal + c.monthlyContribution * ((c.years : ℚ) * 12) ∧
      (calculateCompound c).totalEarnings
          = ((calculateCompound c).totalValue).map
              (fun v => v - (calculateCompound c).totalContributions) ∧
      (calculateCompound c).returnMultiple
          = ((calculateCompound c).totalValue).bind
              (fun v => qdiv v ((calculateCompound c).totalContributions))) ∧
    (calculateCompound compoundDefault).totalContributions = 130000 ∧
    ∃ v, (calculateCompound compoundDefault).totalValue = some v ∧ 130000 < v := by
  refine ⟨fun c _ => ⟨?_, rfl, rfl⟩, ?_, ?_⟩
  · show c.principal + c.monthlyContribution * ((c.years * 12 : ℕ) : ℚ)
        = c.principal + c.monthlyContribution * ((c.years : ℚ) * 12)
    push_cast
    ring
  · norm_num [calculateCompound, compoundDefault]
  · refine ⟨10000 * (1 + 8 / 100 : ℚ) ^ 20
      + 500 * (((1 + 8 / 100 / 12 : ℚ) ^ (20 * 12) - 1) / (8 / 100 / 12)), ?_, ?_⟩
    · norm_num [calculateCompound, compoundDefault, qdiv]
    · norm_num

/-- C4 witness: the universal part applied to the default compound input,
whose horizon of 20 years is positive. -/
theorem calculateCompound_spec_witness :
    0 < compoundDefault.years ∧
    (calculateCompound compoundDefault).totalContributions
      = compoundDefault.principal
        + compoundDefault.monthlyContribution * ((compoundDefault.years : ℚ) * 12) :=
  ⟨by norm_num [compoundDefault],
    (calculateCompound_spec.1 compoundDefault (by norm_num [compoundDefault])).1⟩

/-! ## C5: portfolio valuation and profit-and-loss -/

/-- C5: for every holdings list the accumulated `totalValue` and
`totalCost` are the sums `Σ shares * currentPrice` and `Σ shares * avgPrice`,
`totalGainLoss` is their difference, and when `totalCost > 0` the percentage
is `totalGainLoss / totalCost * 100`; on the component's default holdings
the exact rational values are `totalValue = 22155.65`, `totalCost = 16500`
and `totalGainLoss = 5655.65`. -/
theorem calculateMetrics_spec :
    (∀ hs : List Holding,
      (calculateMetrics hs).totalValue = (hs.map (fun h => h.shares * h.currentPrice)).sum ∧
      portfolioTotalCost hs = (hs.map (fun h => h.shares * h.avgPrice)).sum ∧
      (calculateMetrics hs).totalGainLoss
          = (calculateMetrics hs).totalValue - portfolioTotalCost hs ∧
      (0 < portfolioTotalCost hs →
        (calculateMetrics hs).totalGainLossPercent
            = (calculateMetrics hs).totalGainLoss / portfolioTotalCost hs * 100)) ∧
    (calculateMetrics sampleHoldings).totalValue = 22155.65 ∧
    portfolioTotalCost sampleHoldings = 16500 ∧
    (calculateMetrics sampleHoldings).totalGainLoss = 5655.65 := by
  refine ⟨fun hs => ⟨?_, ?_, rfl, fun hpos => ?_⟩, ?_, ?_, ?_⟩
  · show portfolioTotalValue hs = _
    rw [portfolioTotalValue, foldl_add_eq_sum, zero_add]
  · rw [portfolioTotalCost, foldl_add_eq_sum, zero_add]
  · show (if 0 < portfolioTotalCost hs then _ else _) = _
    rw [if_pos hpos]
    rfl
  · norm_num [calculateMetrics, portfolioTotalValue, sampleHoldings]
  · norm_num [portfolioTotalCost, sampleHoldings]
  · norm_num [calculateMetrics, portfolioTotalValue, portfolioTotalCost, sampleHoldings]

/-- C5 witness: the guarded-percentage clause applied to the default
holdings, whose total cost 16500 is positive. -/
theorem calculateMetrics_spec_witness :
    (0 : ℚ) < portfolioTotalCost sampleHoldings ∧
    (calculateMetrics sampleHoldings).totalGainLossPercent
        = (calculateMetrics sampleHoldings).totalGainLoss
            / portfolioTotalCost sampleHoldings * 100 := by
  have hpos : (0 : ℚ) < portfolioTotalCost sampleHoldings := by
    norm_num [portfolioTotalCost, sampleHoldings]
  exact ⟨hpos, (calculateMetrics_spec.1 sampleHoldings).2.2.2 hpos⟩

/-! ## C6: risk and diversification scores -/

/-- C6: for every holdings list,
`riskScore = clamp(50 + totalGainLossPercent * 2, 0, 100)` and
`diversificationScore = clamp(holdingCount * 20, 0, 100)`; both scores lie
in `[0, 100]`, and the diversification score saturates at `100` for five or
more holdings. -/
theorem calculateMetrics_scores_spec (hs : List Holding) :
    (calculateMetrics hs).riskScore
        = min 100 (max 0 (50 + (calculateMetrics hs).totalGainLossPercent * 2)) ∧
    (calculateMetrics hs).diversificationScore
        = min 100 (max 0 ((hs.length : ℚ) * 20)) ∧
    0 ≤ (calculateMetrics hs).riskScore ∧ (calculateMetrics hs).riskScore ≤ 100 ∧
    0 ≤ (calculateMetrics hs).diversificationScore ∧
    (calculateMetrics hs).diversificationScore ≤ 100 ∧
    (5 ≤ hs.length → (calculateMetrics hs).diversificationScore = 100) := by
  have hlen : (0 : ℚ) ≤ (hs.length : ℚ) * 20 := by positivity
  refine ⟨rfl, ?_, ?_, ?_, ?_, ?_, fun h5 => ?_⟩
  · show min 100 ((hs.length : ℚ) * 20) = _
    rw [max_eq_right hlen]
  · exact le_min (by norm_num) (le_max_left 0 _)
  · exact min_le_left _ _
  · exact le_min (by norm_num) hlen
  · exact min_le_left _ _
  · show min 100 ((hs.length : ℚ) * 20) = 100
    have : (5 : ℚ) ≤ (hs.length : ℚ) := by exact_mod_cast h5
    rw [min_eq_left (by linarith)]

/-- C6 witness: on a five-holding portfolio the saturation clause applies
and the diversification score is exactly 100. -/
theorem calculateMetrics_scores_spec_witness :
    5 ≤ fiveHoldings.length ∧
    (calculateMetrics fiveHoldings).diversificationScore = 100 :=
  ⟨by decide, (calculateMetrics_scores_spec fiveHoldings).2.2.2.2.2.2 (by decide)⟩

/-! ## C7: recommended-allocation lookup table -/

/-- C7: `calculateGoal`'s recommended allocation is exactly the fixed
lookup table for the input's risk tolerance — conservative 30/60/10,
moderate 60/30/10, aggressive 80/15/5 — and in every tier the three
percentages sum to exactly 100. -/
theorem calculateGoal_allocation_spec (g : GoalInput) :
    (calculateGoal g).recommendedAllocation = allocations g.riskTolerance ∧
    allocations RiskTolerance.conservative = ⟨30, 60, 10⟩ ∧
    allocations RiskTolerance.moderate = ⟨60, 30, 10⟩ ∧
    allocations RiskTolerance.aggressive = ⟨80, 15, 5⟩ ∧
    (calculateGoal g).recommendedAllocation.stocks
        + (calculateGoal g).recommendedAllocation.bonds
        + (calculateGoal g).recommendedAllocation.cash = 100 := by
  refine ⟨rfl, rfl, rfl, rfl, ?_⟩
  show (allocations g.riskTolerance).stocks + (allocations g.riskTolerance).bonds
      + (allocations g.riskTolerance).cash = 100
  cases g.riskTolerance <;> norm_num [allocations]

/-! ## C8: contributions never subtract value -/

/-- C8 counterexample: the claim quantifies over every input with
`retirementAge > currentAge` and `monthlyContribution ≥ 0`, but with the
expected return `-3600` (monthly return `-3`) over 2 years (24 months) the
annuity factor is `((-2)^24 - 1)/(-3) = -5592405`, so `totalAtRetirement`
is `-5592405000`, strictly below `futureCurrentSavings = 0`. -/
theorem retirement_negativeRate_cex :
    negativeRateInput.currentAge < negativeRateInput.retirementAge ∧
    0 ≤ negativeRateInput.monthlyContribution ∧
    (calculateRetirement negativeRateInput).totalAtRetirement = some (-5592405000) ∧
    (-5592405000 : ℚ) < futureCurrentSavings negativeRateInput := by
  refine ⟨by norm_num [negativeRateInput], by norm_num [negativeRateInput], ?_, ?_⟩
  · norm_num [calculateRetirement, futureContributions, qdiv, retMonthlyReturn,
      monthsToRetirement, yearsToRetirement, futureCurrentSavings, negativeRateInput]
  · norm_num [futureCurrentSavings, yearsToRetirement, negativeRateInput]

/-- C8 amended: additionally requiring `expectedReturn > 0` (the zero rate
yields a non-finite total, and a sufficiently negative rate makes the
annuity term negative), `totalAtRetirement` is a finite rational at least
`futureCurrentSavings`. -/
theorem calculateRetirement_totalAtLeastSavings (d : RetirementInput)
    (_hage : d.currentAge < d.retirementAge) (hmc : 0 ≤ d.monthlyContribution)
    (hr : 0 < d.expectedReturn) :
    ∃ t, (calculateRetirement d).totalAtRetirement = some t ∧
      futureCurrentSavings d ≤ t := by
  have hmr : 0 < retMonthlyReturn d :=
    div_pos (div_pos hr (by norm_num)) (by norm_num)
  refine ⟨futureCurrentSavings d + d.monthlyContribution
      * (((1 + retMonthlyReturn d) ^ monthsToRetirement d - 1) / retMonthlyReturn d),
    ?_, ?_⟩
  · simp [calculateRetirement, futureContributions, qdiv_of_ne _ _ hmr.ne']
  · have hpow : (1 : ℚ) ≤ (1 + retMonthlyReturn d) ^ monthsToRetirement d :=
      one_le_pow₀ (by linarith)
    have hterm : 0 ≤ d.monthlyContribution
        * (((1 + retMonthlyReturn d) ^ monthsToRetirement d - 1) / retMonthlyReturn d) :=
      mul_nonneg hmc (div_nonneg (by linarith) hmr.le)
    linarith

/-- C8 witness: the amended statement applied to the component's default
retirement input (ages 30 to 65, 7% expected return, 1000 per month). -/
theorem calculateRetirement_totalAtLeastSavings_witness :
    ∃ t, (calculateRetirement ⟨30, 65, 50000, 1000, 7, 75000, 80⟩).totalAtRetirement
        = some t ∧
      futureCurrentSavings ⟨30, 65, 50000, 1000, 7, 75000, 80⟩ ≤ t :=
  calculateRetirement_totalAtLeastSavings ⟨30, 65, 50000, 1000, 7, 75000, 80⟩
    (by norm_num) (by norm_num) (by norm_num)

/-! ## C9: the goal projector's rate is always positive -/

/-- C9: in `calculateGoal` the risk tolerance is mapped to a fixed annual
return in {4, 7, 10}, so the monthly return is strictly positive and the
annuity division in the future-value formula is always well-defined (a
finite rational): the zero-rate degenerate case is unreachable in the goal
projector. -/
theorem goalMonthlyReturn_pos_annuity_defined (g : GoalInput) :
    0 < goalMonthlyReturn g ∧
    (returnRates g.riskTolerance = 4 ∨ returnRates g.riskTolerance = 7 ∨
      returnRates g.riskTolerance = 10) ∧
    goalAnnuityFactor g
        = some (((1 + goalMonthlyReturn g) ^ g.timeHorizon - 1) / goalMonthlyReturn g) := by
  have hpos : 0 < goalMonthlyReturn g := by
    rw [goalMonthlyReturn]
    cases g.riskTolerance <;> norm_num [returnRates]
  refine ⟨hpos, ?_, ?_⟩
  · cases g.riskTolerance <;> simp [returnRates]
  · rw [goalAnnuityFactor]
    exact qdiv_of_ne _ _ hpos.ne'

/-! ## C10: the empty portfolio -/

/-- C10: on the empty holdings list every metric is a defined finite
rational: zero value, zero gain/loss, zero percentage (the zero-cost case
is guarded, not divided), a risk score of 50 and a diversification score
of 0. -/
theorem calculateMetrics_empty : calculateMetrics [] = ⟨0, 0, 0, 50, 0⟩ := by
  norm_num [calculateMetrics, portfolioTotalValue, portfolioTotalCost]
